import Mathlib

/-
Verification of the session-authentication and chat-lifecycle core of a
gated chat front-end (src/app.py).  The mutable Streamlit session state is
embedded as an explicit record `AppState`; each source function becomes a
pure Lean function from the old state (plus the current time and the
configuration read from secrets) to its result and the new state.  The
response backend is an injected provider `String → String → Except String
String`; a Python exception raised by the backend is the `Except.error`
case.  Times are integers (seconds); `datetime.now()` is an explicit
parameter `now`.
-/

set_option autoImplicit false

namespace MyAI

/-- Role of a chat turn: the dict key "role" is "user" or "assistant". -/
inductive Role where
  | user
  | assistant
deriving DecidableEq, Repr

/-- One chat message, as appended to st.session_state.messages:
a dict with "role", "content" and "timestamp". -/
structure Turn where
  role : Role
  content : String
  timestamp : Int
deriving DecidableEq, Repr

/-- The Streamlit session state fields set up by initialize_session_state:
authenticated, messages, current_model, login_attempts, last_activity. -/
structure AppState where
  authenticated : Bool
  messages : List Turn
  currentModel : String
  loginAttempts : Nat
  lastActivity : Int
deriving DecidableEq, Repr

/-- The configuration read from st.secrets: ALLOWED_ATTEMPTS (default 3),
SESSION_TIMEOUT (default 3600) and APP_PASSWORD. -/
structure Config where
  maxAttempts : Nat
  timeoutSeconds : Int
  correctPassword : String
deriving DecidableEq, Repr

/-- initialize_session_state: authenticated=False, messages=[],
current_model="gemini-pro", login_attempts=0, last_activity=now. -/
def init_session_state (t0 : Int) : AppState :=
  { authenticated := false
    messages := []
    currentModel := "gemini-pro"
    loginAttempts := 0
    lastActivity := t0 }

/-- check_session_timeout: if authenticated and now - last_activity
exceeds the timeout, clear authenticated and login_attempts and return
True; otherwise return False.  Returns the flag and the new state. -/
def check_session_timeout (cfg : Config) (now : Int) (s : AppState) :
    Bool × AppState :=
  if s.authenticated then
    if now - s.lastActivity > cfg.timeoutSeconds then
      (true, { s with authenticated := false, loginAttempts := 0 })
    else
      (false, s)
  else
    (false, s)

/-- authenticate: if login_attempts >= max_attempts, return False with the
state untouched (the code also sleeps 2 seconds there, a pure delay with
no state effect).  Otherwise increment login_attempts; on a password match
reset login_attempts to 0, set last_activity=now and return True; on a
mismatch return False. -/
def authenticate (cfg : Config) (password_attempt : String) (now : Int)
    (s : AppState) : Bool × AppState :=
  if cfg.maxAttempts ≤ s.loginAttempts then
    (false, s)
  else
    let s1 := { s with loginAttempts := s.loginAttempts + 1 }
    if password_attempt = cfg.correctPassword then
      (true, { s1 with loginAttempts := 0, lastActivity := now })
    else
      (false, s1)

/-- reset_chat: st.session_state.messages = []. -/
def reset_chat (s : AppState) : AppState :=
  { s with messages := [] }

/-- get_gemini_response: call the backend; any exception is caught and
rendered as the string "Error: " followed by str(e). -/
def get_gemini_response (provider : String → String → Except String String)
    (model_name prompt : String) : String :=
  match provider model_name prompt with
  | Except.ok text => text
  | Except.error e => "Error: " ++ e

/-- update_last_activity: st.session_state.last_activity = now. -/
def update_last_activity (now : Int) (s : AppState) : AppState :=
  { s with lastActivity := now }

/-- The remaining-attempts figure computed in main:
max_attempts - st.session_state.login_attempts (Python int arithmetic). -/
def remaining_attempts (cfg : Config) (s : AppState) : Int :=
  (cfg.maxAttempts : Int) - (s.loginAttempts : Int)

/-- Result of one press of the Login button. -/
structure LoginResult where
  accepted : Bool
  remainingAttempts : Int
  state : AppState
deriving DecidableEq, Repr

/-- One press of the Login button in main: call authenticate; if it
returns True, set st.session_state.authenticated = True.  The
remaining-attempts figure is the one main computes from the resulting
login_attempts. -/
def attemptLogin (cfg : Config) (pw : String) (now : Int) (s : AppState) :
    LoginResult :=
  match authenticate cfg pw now s with
  | (true, s2) =>
      let s3 := { s2 with authenticated := true }
      { accepted := true
        remainingAttempts := remaining_attempts cfg s3
        state := s3 }
  | (false, s2) =>
      { accepted := false
        remainingAttempts := remaining_attempts cfg s2
        state := s2 }

/-- One press of the Logout button in main:
authenticated=False, login_attempts=0. -/
def logout (s : AppState) : AppState :=
  { s with authenticated := false, loginAttempts := 0 }

/-- One press of the Send button in main.  The code guard is Python
truthiness of the input string: only the empty string is rejected.  On a
non-empty input: update_last_activity, append the user turn, obtain the
bot response via get_gemini_response (total: failures come back as error
text), append the assistant turn.  The second component records the
prompts sent to the provider, so that "the provider was never invoked" is
the statement that this list is empty. -/
def submitPrompt (provider : String → String → Except String String)
    (user_input : String) (now : Int) (s : AppState) :
    AppState × List String :=
  if user_input = "" then
    (s, [])
  else
    let s1 := update_last_activity now s
    let userTurn : Turn := { role := Role.user, content := user_input, timestamp := now }
    let s2 := { s1 with messages := s1.messages ++ [userTurn] }
    let bot_response := get_gemini_response provider s2.currentModel user_input
    let botTurn : Turn := { role := Role.assistant, content := bot_response, timestamp := now }
    ({ s2 with messages := s2.messages ++ [botTurn] }, [user_input])

/-- One user-visible action on the session, as composed by main.  A rerun
of main first performs the timeout check; when not authenticated only the
login form is reachable (main returns before the sidebar and chat input),
and when authenticated the sidebar buttons and the chat input are
reachable. -/
inductive Op where
  | login (pw : String) (t : Int)
  | timeoutCheck (t : Int)
  | logoutBtn
  | resetBtn
  | send (provider : String → String → Except String String)
      (input : String) (t : Int)

/-- Apply one action, with the reachability guards of main: the login form
only exists while not authenticated; logout, reset and send only while
authenticated. -/
def applyOp (cfg : Config) (s : AppState) : Op → AppState
  | Op.login pw t => if s.authenticated then s else (attemptLogin cfg pw t s).state
  | Op.timeoutCheck t => (check_session_timeout cfg t s).2
  | Op.logoutBtn => if s.authenticated then logout s else s
  | Op.resetBtn => if s.authenticated then reset_chat s else s
  | Op.send provider input t =>
      if s.authenticated then (submitPrompt provider input t s).1 else s

/-- Run a sequence of actions from a state. -/
def runOps (cfg : Config) (s : AppState) (ops : List Op) : AppState :=
  ops.foldl (applyOp cfg) s

/-- A state is reachable when some action sequence produces it from the
freshly initialized session state. -/
def Reachable (cfg : Config) (s : AppState) : Prop :=
  ∃ (t0 : Int) (ops : List Op), s = runOps cfg (init_session_state t0) ops

/-- The session invariant: authenticated implies login_attempts = 0, and
login_attempts never exceeds max_attempts. -/
def Inv (cfg : Config) (s : AppState) : Prop :=
  (s.authenticated = true → s.loginAttempts = 0) ∧
    s.loginAttempts ≤ cfg.maxAttempts

/-- A concrete configuration for witnesses. -/
def cfg0 : Config :=
  { maxAttempts := 3, timeoutSeconds := 3600, correctPassword := "hunter2" }

/-- A concrete locked-out state for witnesses. -/
def lockedState : AppState :=
  { authenticated := false
    messages := []
    currentModel := "gemini-pro"
    loginAttempts := 3
    lastActivity := 0 }

/-- A concrete authenticated state for witnesses. -/
def liveState : AppState :=
  { authenticated := true
    messages := []
    currentModel := "gemini-pro"
    loginAttempts := 0
    lastActivity := 0 }

/-- A provider that always fails, for witnesses. -/
def failProvider : String → String → Except String String :=
  fun _ _ => Except.error "boom"

/-- A provider that always succeeds, for witnesses. -/
def okProvider : String → String → Except String String :=
  fun _ _ => Except.ok "hello"

/-- authenticate in the locked-out branch: rejected, state untouched. -/
theorem authenticate_locked (cfg : Config) (pw : String) (now : Int)
    (s : AppState) (h : cfg.maxAttempts ≤ s.loginAttempts) :
    authenticate cfg pw now s = (false, s) := by
  unfold authenticate
  simp [h]

/-- authenticate below the limit with the correct password: accepted,
attempts reset, last_activity updated. -/
theorem authenticate_correct (cfg : Config) (now : Int) (s : AppState)
    (h : s.loginAttempts < cfg.maxAttempts) :
    authenticate cfg cfg.correctPassword now s =
      (true, { s with loginAttempts := 0, lastActivity := now }) := by
  unfold authenticate
  simp [Nat.not_le.mpr h]

/-- authenticate below the limit with a wrong password: rejected, the
counter incremented by one, nothing else changed. -/
theorem authenticate_wrong (cfg : Config) (pw : String) (now : Int)
    (s : AppState) (h : s.loginAttempts < cfg.maxAttempts)
    (hpw : pw ≠ cfg.correctPassword) :
    authenticate cfg pw now s =
      (false, { s with loginAttempts := s.loginAttempts + 1 }) := by
  unfold authenticate
  simp [Nat.not_le.mpr h, hpw]

/-- attemptLogin in the locked-out branch. -/
theorem attemptLogin_locked (cfg : Config) (pw : String) (now : Int)
    (s : AppState) (h : cfg.maxAttempts ≤ s.loginAttempts) :
    attemptLogin cfg pw now s =
      { accepted := false
        remainingAttempts := remaining_attempts cfg s
        state := s } := by
  unfold attemptLogin
  rw [authenticate_locked cfg pw now s h]

/-- attemptLogin below the limit with the correct password. -/
theorem attemptLogin_correct (cfg : Config) (now : Int) (s : AppState)
    (h : s.loginAttempts < cfg.maxAttempts) :
    attemptLogin cfg cfg.correctPassword now s =
      { accepted := true
        remainingAttempts :=
          remaining_attempts cfg
            { s with authenticated := true, loginAttempts := 0, lastActivity := now }
        state :=
          { s with authenticated := true, loginAttempts := 0, lastActivity := now } } := by
  unfold attemptLogin
  rw [authenticate_correct cfg now s h]

/-- attemptLogin below the limit with a wrong password. -/
theorem attemptLogin_wrong (cfg : Config) (pw : String) (now : Int)
    (s : AppState) (h : s.loginAttempts < cfg.maxAttempts)
    (hpw : pw ≠ cfg.correctPassword) :
    attemptLogin cfg pw now s =
      { accepted := false
        remainingAttempts :=
          remaining_attempts cfg { s with loginAttempts := s.loginAttempts + 1 }
        state := { s with loginAttempts := s.loginAttempts + 1 } } := by
  unfold attemptLogin
  rw [authenticate_wrong cfg pw now s h hpw]

/-- A non-empty prompt submission changes only messages and
last_activity. -/
theorem submitPrompt_state (provider : String → String → Except String String)
    (user_input : String) (now : Int) (s : AppState) :
    (submitPrompt provider user_input now s).1.authenticated = s.authenticated ∧
    (submitPrompt provider user_input now s).1.loginAttempts = s.loginAttempts ∧
    (submitPrompt provider user_input now s).1.currentModel = s.currentModel := by
  unfold submitPrompt update_last_activity
  split
  · exact ⟨rfl, rfl, rfl⟩
  · exact ⟨rfl, rfl, rfl⟩

/-- Each single action preserves the session invariant. -/
theorem inv_applyOp (cfg : Config) (s : AppState) (op : Op) (h : Inv cfg s) :
    Inv cfg (applyOp cfg s op) := by
  obtain ⟨h1, h2⟩ := h
  cases op with
  | login pw t =>
    simp only [applyOp]
    split
    · exact ⟨h1, h2⟩
    · rename_i ha
      by_cases hm : cfg.maxAttempts ≤ s.loginAttempts
      · rw [attemptLogin_locked cfg pw t s hm]
        exact ⟨h1, h2⟩
      · by_cases hp : pw = cfg.correctPassword
        · rw [hp, attemptLogin_correct cfg t s (Nat.not_le.mp hm)]
          exact ⟨fun _ => rfl, Nat.zero_le _⟩
        · rw [attemptLogin_wrong cfg pw t s (Nat.not_le.mp hm) hp]
          refine ⟨fun hcontra => absurd hcontra ha, ?_⟩
          show s.loginAttempts + 1 ≤ cfg.maxAttempts
          have := Nat.not_le.mp hm
          omega
  | timeoutCheck t =>
    simp only [applyOp]
    unfold check_session_timeout
    by_cases ha : s.authenticated = true
    · by_cases ht : t - s.lastActivity > cfg.timeoutSeconds
      · simp only [ha, if_true, ht]
        exact ⟨fun _ => rfl, Nat.zero_le _⟩
      · simp only [ha, if_true, ht, if_false]
        exact ⟨h1, h2⟩
    · simp only [ha, if_false]
      exact ⟨h1, h2⟩
  | logoutBtn =>
    simp only [applyOp]
    split
    · exact ⟨fun _ => rfl, Nat.zero_le _⟩
    · exact ⟨h1, h2⟩
  | resetBtn =>
    simp only [applyOp]
    split
    · exact ⟨h1, h2⟩
    · exact ⟨h1, h2⟩
  | send provider input t =>
    simp only [applyOp]
    split
    · obtain ⟨ha, hl, -⟩ := submitPrompt_state provider input t s
      rw [Inv, ha, hl]
      exact ⟨h1, h2⟩
    · exact ⟨h1, h2⟩

/-- Running any action sequence preserves the session invariant. -/
theorem inv_runOps (cfg : Config) (s : AppState) (ops : List Op)
    (h : Inv cfg s) : Inv cfg (runOps cfg s ops) := by
  induction ops generalizing s with
  | nil => exact h
  | cons op ops ih =>
    simp only [runOps, List.foldl_cons]
    exact ih _ (inv_applyOp cfg s op h)

/-- C1: every reachable session state satisfies the invariant that
authenticated implies login_attempts = 0, and login_attempts never
exceeds max_attempts. -/
theorem C1_session_invariant (cfg : Config) (s : AppState)
    (h : Reachable cfg s) : Inv cfg s := by
  obtain ⟨t0, ops, rfl⟩ := h
  refine inv_runOps cfg _ ops ?_
  exact ⟨fun hcontra => by simp [init_session_state] at hcontra, Nat.zero_le _⟩

/-- C1 witness: the invariant at a concrete reachable state, obtained by
a login followed by a timeout check from the initial state. -/
theorem C1_session_invariant_witness :
    Inv cfg0 (runOps cfg0 (init_session_state 0)
      [Op.login "hunter2" 5, Op.timeoutCheck 10]) :=
  C1_session_invariant cfg0 _ ⟨0, [Op.login "hunter2" 5, Op.timeoutCheck 10], rfl⟩

/-- C2: once login_attempts has reached max_attempts (it never exceeds it,
by the C1 invariant, taken here as the hypothesis h2), attemptLogin
rejects every password with remainingAttempts = 0 and leaves the whole
session state unchanged. -/
theorem C2_lockout (cfg : Config) (pw : String) (now : Int) (s : AppState)
    (h1 : cfg.maxAttempts ≤ s.loginAttempts)
    (h2 : s.loginAttempts ≤ cfg.maxAttempts) :
    (attemptLogin cfg pw now s).accepted = false ∧
    (attemptLogin cfg pw now s).remainingAttempts = 0 ∧
    (attemptLogin cfg pw now s).state = s := by
  rw [attemptLogin_locked cfg pw now s h1]
  refine ⟨rfl, ?_, rfl⟩
  show remaining_attempts cfg s = 0
  unfold remaining_attempts
  omega

/-- C2 witness: at the locked-out state, the correct password is rejected
with remainingAttempts = 0 and the state is unchanged. -/
theorem C2_lockout_witness :
    (attemptLogin cfg0 "hunter2" 7 lockedState).accepted = false ∧
    (attemptLogin cfg0 "hunter2" 7 lockedState).remainingAttempts = 0 ∧
    (attemptLogin cfg0 "hunter2" 7 lockedState).state = lockedState :=
  C2_lockout cfg0 "hunter2" 7 lockedState (by decide) (by decide)

/-- C5: the timeout check returns false whenever the elapsed time is
strictly below the timeout; when authenticated and the elapsed time is
strictly above the timeout it returns true and clears authenticated and
login_attempts; when not authenticated it returns false. -/
theorem C5_checkTimeout (cfg : Config) (now : Int) (s : AppState) :
    (now - s.lastActivity < cfg.timeoutSeconds →
      (check_session_timeout cfg now s).1 = false) ∧
    (s.authenticated = true → cfg.timeoutSeconds < now - s.lastActivity →
      (check_session_timeout cfg now s).1 = true ∧
      (check_session_timeout cfg now s).2.authenticated = false ∧
      (check_session_timeout cfg now s).2.loginAttempts = 0) ∧
    (s.authenticated = false → (check_session_timeout cfg now s).1 = false) := by
  unfold check_session_timeout
  refine ⟨?_, ?_, ?_⟩
  · intro hlt
    by_cases ha : s.authenticated = true
    · have hngt : ¬ (now - s.lastActivity > cfg.timeoutSeconds) := by omega
      simp [ha, hngt]
    · simp [ha]
  · intro ha hgt
    simp [ha, hgt]
  · intro ha
    simp [ha]

/-- C5 witness: with timeout 3600, at elapsed time 4000 the check expires
the authenticated session; at elapsed time 100 it returns false. -/
theorem C5_checkTimeout_witness :
    (check_session_timeout cfg0 4000 liveState).1 = true ∧
    (check_session_timeout cfg0 4000 liveState).2.authenticated = false ∧
    (check_session_timeout cfg0 4000 liveState).2.loginAttempts = 0 ∧
    (check_session_timeout cfg0 100 liveState).1 = false := by
  have h1 := (C5_checkTimeout cfg0 4000 liveState).2.1 rfl (by decide)
  have h2 := (C5_checkTimeout cfg0 100 liveState).1 (by decide)
  exact ⟨h1.1, h1.2.1, h1.2.2, h2⟩

/-- C6: from any attempt count strictly below max_attempts, a login with
the correct password is accepted, sets authenticated, resets
login_attempts to 0 and sets last_activity to the current time. -/
theorem C6_correct_login (cfg : Config) (now : Int) (s : AppState)
    (h : s.loginAttempts < cfg.maxAttempts) :
    (attemptLogin cfg cfg.correctPassword now s).accepted = true ∧
    (attemptLogin cfg cfg.correctPassword now s).state.authenticated = true ∧
    (attemptLogin cfg cfg.correctPassword now s).state.loginAttempts = 0 ∧
    (attemptLogin cfg cfg.correctPassword now s).state.lastActivity = now := by
  rw [attemptLogin_correct cfg now s h]
  exact ⟨rfl, rfl, rfl, rfl⟩

/-- C6 witness: the correct password logs in from the fresh state. -/
theorem C6_correct_login_witness :
    (attemptLogin cfg0 cfg0.correctPassword 5 (init_session_state 0)).accepted = true ∧
    (attemptLogin cfg0 cfg0.correctPassword 5 (init_session_state 0)).state.authenticated = true ∧
    (attemptLogin cfg0 cfg0.correctPassword 5 (init_session_state 0)).state.loginAttempts = 0 ∧
    (attemptLogin cfg0 cfg0.correctPassword 5 (init_session_state 0)).state.lastActivity = 5 :=
  C6_correct_login cfg0 5 (init_session_state 0) (by decide)

/-- C7: from any attempt count strictly below max_attempts, a login with a
wrong password is rejected, increments login_attempts by exactly one, and
reports remainingAttempts = max_attempts - (the post-increment count). -/
theorem C7_wrong_password (cfg : Config) (pw : String) (now : Int)
    (s : AppState) (hcnt : s.loginAttempts < cfg.maxAttempts)
    (hpw : pw ≠ cfg.correctPassword) :
    (attemptLogin cfg pw now s).accepted = false ∧
    (attemptLogin cfg pw now s).state.loginAttempts = s.loginAttempts + 1 ∧
    (attemptLogin cfg pw now s).remainingAttempts =
      (cfg.maxAttempts : Int) - ((s.loginAttempts : Int) + 1) := by
  rw [attemptLogin_wrong cfg pw now s hcnt hpw]
  refine ⟨rfl, rfl, ?_⟩
  unfold remaining_attempts
  push_cast
  ring

/-- C7 witness: a wrong password from the fresh state leaves 2 of the 3
attempts. -/
theorem C7_wrong_password_witness :
    (attemptLogin cfg0 "wrong" 5 (init_session_state 0)).accepted = false ∧
    (attemptLogin cfg0 "wrong" 5 (init_session_state 0)).state.loginAttempts = 0 + 1 ∧
    (attemptLogin cfg0 "wrong" 5 (init_session_state 0)).remainingAttempts =
      ((3 : Nat) : Int) - (((0 : Nat) : Int) + 1) :=
  C7_wrong_password cfg0 "wrong" 5 (init_session_state 0) (by decide) (by decide)

/-- C9: a login attempt with a wrong password never touches last_activity
(whether rejected for lockout or for a mismatch); nor do logout, reset or
the timeout check — only a successful login (and an accepted prompt
submission) updates it. -/
theorem C9_lastActivity_frame (cfg : Config) (pw : String) (now : Int)
    (s : AppState) (hpw : pw ≠ cfg.correctPassword) :
    (attemptLogin cfg pw now s).state.lastActivity = s.lastActivity ∧
    (logout s).lastActivity = s.lastActivity ∧
    (reset_chat s).lastActivity = s.lastActivity ∧
    (check_session_timeout cfg now s).2.lastActivity = s.lastActivity := by
  refine ⟨?_, rfl, rfl, ?_⟩
  · by_cases hm : cfg.maxAttempts ≤ s.loginAttempts
    · rw [attemptLogin_locked cfg pw now s hm]
    · rw [attemptLogin_wrong cfg pw now s (Nat.not_le.mp hm) hpw]
  · unfold check_session_timeout
    split
    · split <;> rfl
    · rfl

/-- C9 witness: a wrong password at the fresh state leaves last_activity
at its initial value. -/
theorem C9_lastActivity_frame_witness :
    (attemptLogin cfg0 "wrong" 99 (init_session_state 0)).state.lastActivity =
      (init_session_state 0).lastActivity ∧
    (logout (init_session_state 0)).lastActivity = (init_session_state 0).lastActivity ∧
    (reset_chat (init_session_state 0)).lastActivity = (init_session_state 0).lastActivity ∧
    (check_session_timeout cfg0 99 (init_session_state 0)).2.lastActivity =
      (init_session_state 0).lastActivity :=
  C9_lastActivity_frame cfg0 "wrong" 99 (init_session_state 0) (by decide)

/-- C8: reset() empties messages and changes no other session state. -/
theorem C8_reset_frame (s : AppState) :
    (reset_chat s).messages = [] ∧
    (reset_chat s).authenticated = s.authenticated ∧
    (reset_chat s).loginAttempts = s.loginAttempts ∧
    (reset_chat s).lastActivity = s.lastActivity ∧
    (reset_chat s).currentModel = s.currentModel := by
  simp [reset_chat]

/-- C10: neither logout nor the timeout check (in particular a
timeout-triggered expiry, when it returns true) ever modifies the
messages sequence. -/
theorem C10_messages_preserved (cfg : Config) (now : Int) (s : AppState) :
    (logout s).messages = s.messages ∧
    (check_session_timeout cfg now s).2.messages = s.messages := by
  refine ⟨rfl, ?_⟩
  unfold check_session_timeout
  split <;> [skip; rfl]
  split <;> rfl

/-- C3: a non-blank prompt (the chat-input path is only reached after
check_session_timeout has returned false) appends exactly two turns —
first the user turn with the submitted text, then the assistant turn —
and a provider failure is absorbed into the assistant turn as the text
"Error: " followed by the failure detail; submitPrompt is a total
function, so no failure propagates out of it. -/
theorem C3_two_turns (provider : String → String → Except String String)
    (input : String) (now : Int) (s : AppState)
    (h : input.data.any (fun c => !c.isWhitespace) = true) :
    (submitPrompt provider input now s).1.messages =
      s.messages ++
        [{ role := Role.user, content := input, timestamp := now },
         { role := Role.assistant,
           content := get_gemini_response provider s.currentModel input,
           timestamp := now }] ∧
    (∀ e, provider s.currentModel input = Except.error e →
      get_gemini_response provider s.currentModel input = "Error: " ++ e) := by
  have hne : input ≠ "" := by
    intro h0
    rw [h0] at h
    exact absurd h (by decide)
  constructor
  · unfold submitPrompt update_last_activity
    rw [if_neg hne]
    simp [List.append_assoc]
  · intro e he
    unfold get_gemini_response
    rw [he]

/-- C3 witness: the prompt "hi" against the always-failing provider
appends the user turn and an assistant turn reading the error text. -/
theorem C3_two_turns_witness :
    (submitPrompt failProvider "hi" 1 (init_session_state 0)).1.messages =
      (init_session_state 0).messages ++
        [{ role := Role.user, content := "hi", timestamp := 1 },
         { role := Role.assistant,
           content := get_gemini_response failProvider
             (init_session_state 0).currentModel "hi",
           timestamp := 1 }] ∧
    get_gemini_response failProvider (init_session_state 0).currentModel "hi" =
      "Error: " ++ "boom" := by
  have h := C3_two_turns failProvider "hi" 1 (init_session_state 0) (by decide)
  exact ⟨h.1, h.2 "boom" rfl⟩

/-- C4 counterexample: the claim fails on the code for whitespace-only
input.  The Send handler's guard is Python truthiness of the raw string,
so the single-space prompt is accepted: messages changes (two turns are
appended) and the provider is invoked (the call list is non-empty). -/
theorem C4_counterexample :
    (submitPrompt okProvider " " 1 (init_session_state 0)).1.messages ≠
      (init_session_state 0).messages ∧
    (submitPrompt okProvider " " 1 (init_session_state 0)).2 ≠ [] := by
  constructor
  · decide
  · decide

/-- C4 (amended): for the empty input string, submitPrompt is a no-op —
the state (hence messages) is unchanged and the provider is never invoked
(the recorded call list is empty).  A whitespace-only but non-empty input
is not rejected by the code, since the guard tests only emptiness. -/
theorem C4_empty_noop (provider : String → String → Except String String)
    (now : Int) (s : AppState) :
    submitPrompt provider "" now s = (s, []) := by
  unfold submitPrompt
  rw [if_pos rfl]

end MyAI
